import Mathlib

/-!
# Verification of the `spacetower-notebooks` packaging manifest

Shallow embedding of `src/setup.py`: the static metadata declaration passed
to `setuptools.setup`, and the evaluation of the manifest as a function of
the filesystem it is evaluated against (the `find_packages()` call and the
`open('README.md').read()` call are the only environment-dependent parts).
-/

deriving instance DecidableEq for Except

namespace Spacetower

/-- An entry of the directory tree `find_packages()` scans: a directory
path together with whether it holds an `__init__.py` (i.e. is a package). -/
structure DirEntry where
  path : String
  hasInitPy : Bool
deriving DecidableEq, Repr

/-- The part of the filesystem the manifest's evaluation reads: the contents
of `README.md` when the file exists, and the directory tree scanned by
`find_packages()`. -/
structure FileSystem where
  readme : Option String
  dirTree : List DirEntry
deriving DecidableEq, Repr

/-- Model of `setuptools.find_packages()` (external library code): it scans
the directory tree at evaluation time and returns the directories that are
Python packages. Only its functional dependence on the tree matters here. -/
def find_packages (tree : List DirEntry) : List String :=
  (tree.filter (fun e => e.hasInitPy)).map (fun e => e.path)

/-- The static metadata declaration written out in `src/setup.py`:
every keyword argument of the `setup(...)` call whose value is a literal
(everything except `packages=find_packages()` and
`long_description=open('README.md').read()`). -/
structure ManifestSource where
  name : String
  version : String
  description : String
  author : String
  author_email : String
  url : String
  license : String
  keywords : List String
  install_requires : List String
  extras_require : List (String × List String)
  long_description_content_type : String
deriving DecidableEq, Repr

/-- The manifest revision present in `src/setup.py`. -/
def setupManifest : ManifestSource where
  name := "spacetower-notebooks"
  version := "1.1.4"
  description := "Python Notebooks for FDS workflows"
  author := "Exotrail"
  author_email := ""
  url := "https://github.com/exotrail/spacetower-notebooks"
  license := "MIT"
  keywords := ["FDS", "API", "Exotrail"]
  install_requires :=
    [ "pandas>=2.2.2"
    , "matplotlib>=3.9.0"
    , "plotly>=5.22.0"
    , "spacetrack>=1.3.0"
    , "notebook>=7.2.0"
    , "spacetower-fds-sdk>=1.0.0" ]
  extras_require := [("dev", ["pytest>=7.2.1"])]
  long_description_content_type := "text/markdown"

/-- An error raised while evaluating the manifest. `fileNotFound` models the
`FileNotFoundError` that Python's `open` raises on a missing file. -/
inductive SetupError where
  | fileNotFound (path : String)
deriving DecidableEq, Repr

/-- The fully evaluated manifest: the static fields of `ManifestSource`
together with the two environment-dependent ones (`packages` and
`long_description`). -/
structure Metadata where
  name : String
  version : String
  description : String
  author : String
  author_email : String
  url : String
  license : String
  keywords : List String
  packages : List String
  install_requires : List String
  extras_require : List (String × List String)
  long_description : String
  long_description_content_type : String
deriving DecidableEq, Repr

/-- Evaluating a manifest revision against a filesystem: `find_packages()`
reads the directory tree, and `open('README.md').read()` either returns the
readme contents or raises when the file is absent. Nothing in the manifest
catches the error. -/
def evalManifest (src : ManifestSource) (fs : FileSystem) :
    Except SetupError Metadata :=
  match fs.readme with
  | none => .error (.fileNotFound "README.md")
  | some contents => .ok
      { name := src.name
      , version := src.version
      , description := src.description
      , author := src.author
      , author_email := src.author_email
      , url := src.url
      , license := src.license
      , keywords := src.keywords
      , packages := find_packages fs.dirTree
      , install_requires := src.install_requires
      , extras_require := src.extras_require
      , long_description := contents
      , long_description_content_type := src.long_description_content_type }

/-- Evaluation of `src/setup.py` itself. -/
def evalSetup (fs : FileSystem) : Except SetupError Metadata :=
  evalManifest setupManifest fs

/-! ## Parsing of requirement and version strings -/

/-- Split a character list at the first occurrence of the two-character
operator `>=`, returning the part before it and the part after it, or
`none` when the operator does not occur. -/
def splitOnGE : List Char → Option (List Char × List Char)
  | [] => none
  | '>' :: '=' :: rest => some ([], rest)
  | c :: rest => (splitOnGE rest).map (fun p => (c :: p.1, p.2))

/-- Split a character list on every occurrence of a separator character. -/
def splitOnChar (sep : Char) : List Char → List (List Char)
  | [] => [[]]
  | c :: cs =>
      let r := splitOnChar sep cs
      if c = sep then [] :: r
      else
        match r with
        | [] => [[c]]
        | h :: t => (c :: h) :: t

/-- A nonempty run of decimal digits. -/
def isNumeric (cs : List Char) : Bool :=
  !cs.isEmpty && cs.all (fun c => c.isDigit)

/-- Three dot-separated nonempty numeric components, nothing else. -/
def isSemVerChars (cs : List Char) : Bool :=
  match splitOnChar '.' cs with
  | [a, b, c] => isNumeric a && isNumeric b && isNumeric c
  | _ => false

/-- The declared version string parses as `X.Y.Z` with numeric components. -/
def isSemVer (s : String) : Bool :=
  isSemVerChars s.data

/-- A requirement string of the form `name>=X.Y.Z`: a nonempty name before
the `>=` operator and a three-component numeric version after it. -/
def isValidRequirement (s : String) : Bool :=
  match splitOnGE s.data with
  | some (nm, ver) => !nm.isEmpty && isSemVerChars ver
  | none => false

/-- The `>=` lower bound a requirement string declares: the dependency name
paired with the minimum version, when the string contains `>=`. -/
def lowerBound (s : String) : Option (String × String) :=
  (splitOnGE s.data).map (fun p => (String.mk p.1, String.mk p.2))

/-- The minimum version a requirement list demands for a given dependency
name, when exactly that name occurs with a `>=` bound. -/
def minVersionOf (reqs : List String) (dep : String) : Option String :=
  (reqs.filterMap (fun s =>
    match lowerBound s with
    | some (nm, v) => if nm = dep then some v else none
    | none => none)).head?

/-- Modelled from the spec: the second revision of the packaging manifest.
Only one revision of `setup.py` is included under `src/`; the spec states
that the source consists of two revisions and that the `spacetower-fds-sdk`
dependency "carries two different minimum versions across the two manifest
revisions shown". The spec fixes nothing else about the second revision, so
it is modelled as the first revision with a different `spacetower-fds-sdk`
lower bound (the concrete value `1.1.0` stands for that differing bound). -/
def setupManifestRev2 : ManifestSource :=
  { setupManifest with
      install_requires :=
        [ "pandas>=2.2.2"
        , "matplotlib>=3.9.0"
        , "plotly>=5.22.0"
        , "spacetrack>=1.3.0"
        , "notebook>=7.2.0"
        , "spacetower-fds-sdk>=1.1.0" ] }

/-- The dependency names, in order, of a requirement list. -/
def requirementNames (reqs : List String) : List String :=
  reqs.filterMap (fun s => (lowerBound s).map (fun p => p.1))

/-- A concrete environment: a readme and a tree with one package directory. -/
def fsA : FileSystem :=
  { readme := some "readme A"
  , dirTree := [⟨"notebooks", true⟩, ⟨"data", false⟩] }

/-- A concrete environment with a different readme and an empty tree. -/
def fsB : FileSystem :=
  { readme := some "readme B", dirTree := [] }

/-- A concrete environment with the same directory tree as `fsA` but a
different readme. -/
def fsC : FileSystem :=
  { readme := some "readme C"
  , dirTree := [⟨"notebooks", true⟩, ⟨"data", false⟩] }

/-- What evaluating `src/setup.py` over `fsA` produces. -/
def metaA : Metadata :=
  { name := "spacetower-notebooks"
  , version := "1.1.4"
  , description := "Python Notebooks for FDS workflows"
  , author := "Exotrail"
  , author_email := ""
  , url := "https://github.com/exotrail/spacetower-notebooks"
  , license := "MIT"
  , keywords := ["FDS", "API", "Exotrail"]
  , packages := ["notebooks"]
  , install_requires := setupManifest.install_requires
  , extras_require := setupManifest.extras_require
  , long_description := "readme A"
  , long_description_content_type := "text/markdown" }

/-- What evaluating `src/setup.py` over `fsB` produces. -/
def metaB : Metadata :=
  { metaA with packages := [], long_description := "readme B" }

/-- What evaluating `src/setup.py` over `fsC` produces. -/
def metaC : Metadata :=
  { metaA with long_description := "readme C" }

end Spacetower

namespace Spacetower

/-- Helper: a successful evaluation fixes every statically declared field to
the literal written in `src/setup.py`, whatever the environment. -/
theorem evalSetup_ok_static (fs : FileSystem) (m : Metadata)
    (h : evalSetup fs = .ok m) :
    m.name = "spacetower-notebooks" ∧ m.version = "1.1.4" ∧
    m.description = "Python Notebooks for FDS workflows" ∧
    m.author = "Exotrail" ∧ m.author_email = "" ∧
    m.url = "https://github.com/exotrail/spacetower-notebooks" ∧
    m.license = "MIT" ∧ m.keywords = ["FDS", "API", "Exotrail"] ∧
    m.install_requires = setupManifest.install_requires ∧
    m.extras_require = setupManifest.extras_require ∧
    m.long_description_content_type = "text/markdown" := by
  simp only [evalSetup, evalManifest] at h
  split at h
  · exact absurd h (by simp)
  · cases h
    exact ⟨rfl, rfl, rfl, rfl, rfl, rfl, rfl, rfl, rfl, rfl, rfl⟩

/-- Helper: a successful evaluation's `packages` field is exactly what
`find_packages()` reads off the environment's directory tree. -/
theorem evalSetup_ok_packages (fs : FileSystem) (m : Metadata)
    (h : evalSetup fs = .ok m) :
    m.packages = find_packages fs.dirTree := by
  simp only [evalSetup, evalManifest] at h
  split at h
  · exact absurd h (by simp)
  · cases h
    rfl

/-- Helper: a successful evaluation's `long_description` is exactly the
contents of the environment's `README.md`. -/
theorem evalSetup_ok_readme (fs : FileSystem) (m : Metadata)
    (h : evalSetup fs = .ok m) :
    fs.readme = some m.long_description := by
  simp only [evalSetup, evalManifest] at h
  split at h
  · exact absurd h (by simp)
  · cases h
    simpa using (by assumption : fs.readme = _)

/-- **C1.** The two manifest revisions give `spacetower-fds-sdk` two
different minimum versions: revision 1 (the one in `src/setup.py`) demands
at least `1.0.0`, revision 2 demands a different minimum. -/
theorem two_revisions_differ_on_fds_sdk_bound :
    minVersionOf setupManifest.install_requires "spacetower-fds-sdk"
        = some "1.0.0" ∧
    minVersionOf setupManifestRev2.install_requires "spacetower-fds-sdk"
        ≠ minVersionOf setupManifest.install_requires "spacetower-fds-sdk" := by
  decide

/-- **C2.** The manifest declares exactly six run-time dependencies, each a
lower-bound (`>=`) constraint, and their names are exactly `pandas`,
`matplotlib`, `plotly`, `spacetrack`, `notebook`, `spacetower-fds-sdk`. -/
theorem six_runtime_dependencies :
    setupManifest.install_requires.length = 6 ∧
    requirementNames setupManifest.install_requires
      = [ "pandas", "matplotlib", "plotly"
        , "spacetrack", "notebook", "spacetower-fds-sdk" ] ∧
    setupManifest.install_requires.all
      (fun s => (splitOnGE s.data).isSome) = true := by
  decide

/-- **C3 counterexample.** The claim that "evaluating the manifest with
`README.md` absent does not fail inside this source's own code" is false:
the `open('README.md').read()` call is a statement of the manifest itself,
and evaluating the manifest on a filesystem without `README.md` fails with
a file-not-found error raised by that call. -/
theorem eval_without_readme_fails :
    evalSetup { readme := none, dirTree := [] }
      = .error (.fileNotFound "README.md") := by
  rfl

/-- **C3 (amended).** The manifest defines no failure handling of its own:
when `README.md` is absent, evaluation fails at the manifest's own `open`
call and the error propagates unhandled to the external packaging tool,
whatever the rest of the filesystem holds. -/
theorem missing_readme_error_propagates_unhandled
    (fs : FileSystem) (h : fs.readme = none) :
    evalSetup fs = .error (.fileNotFound "README.md") := by
  simp [evalSetup, evalManifest, h]

/-- Witness for `missing_readme_error_propagates_unhandled` at a concrete
filesystem with packages but no readme. -/
theorem missing_readme_error_propagates_unhandled_witness :
    evalSetup { readme := none, dirTree := [⟨"notebooks", true⟩] }
      = .error (.fileNotFound "README.md") :=
  missing_readme_error_propagates_unhandled
    { readme := none, dirTree := [⟨"notebooks", true⟩] } rfl

/-- **C4.** On any filesystem where `README.md` exists, the evaluated
manifest supplies every metadata field the spec lists: name, version,
description, author, URL, license, keywords, and a long description taken
from the readme file with markdown content type. -/
theorem all_metadata_fields_supplied
    (fs : FileSystem) (txt : String) (h : fs.readme = some txt) :
    ∃ m, evalSetup fs = .ok m ∧
      m.name = "spacetower-notebooks" ∧
      m.version = "1.1.4" ∧
      m.description = "Python Notebooks for FDS workflows" ∧
      m.author = "Exotrail" ∧
      m.url = "https://github.com/exotrail/spacetower-notebooks" ∧
      m.license = "MIT" ∧
      m.keywords = ["FDS", "API", "Exotrail"] ∧
      m.long_description = txt ∧
      m.long_description_content_type = "text/markdown" := by
  have hok : evalSetup fs = .ok
      { name := "spacetower-notebooks"
      , version := "1.1.4"
      , description := "Python Notebooks for FDS workflows"
      , author := "Exotrail"
      , author_email := ""
      , url := "https://github.com/exotrail/spacetower-notebooks"
      , license := "MIT"
      , keywords := ["FDS", "API", "Exotrail"]
      , packages := find_packages fs.dirTree
      , install_requires := setupManifest.install_requires
      , extras_require := setupManifest.extras_require
      , long_description := txt
      , long_description_content_type := "text/markdown" } := by
    simp [evalSetup, evalManifest, h]
    decide
  exact ⟨_, hok, rfl, rfl, rfl, rfl, rfl, rfl, rfl, rfl, rfl⟩

/-- Witness for `all_metadata_fields_supplied` at a concrete filesystem
holding a readme. -/
theorem all_metadata_fields_supplied_witness :
    ∃ m, evalSetup { readme := some "# spacetower", dirTree := [] } = .ok m ∧
      m.name = "spacetower-notebooks" ∧
      m.version = "1.1.4" ∧
      m.description = "Python Notebooks for FDS workflows" ∧
      m.author = "Exotrail" ∧
      m.url = "https://github.com/exotrail/spacetower-notebooks" ∧
      m.license = "MIT" ∧
      m.keywords = ["FDS", "API", "Exotrail"] ∧
      m.long_description = "# spacetower" ∧
      m.long_description_content_type = "text/markdown" :=
  all_metadata_fields_supplied
    { readme := some "# spacetower", dirTree := [] } "# spacetower" rfl

/-- **C5.** The manifest declares exactly one extra, keyed `dev`, holding
exactly one dependency: `pytest` with the lower bound `7.2.1`. -/
theorem single_dev_extra_with_pytest :
    setupManifest.extras_require = [("dev", ["pytest>=7.2.1"])] ∧
    minVersionOf ["pytest>=7.2.1"] "pytest" = some "7.2.1" := by
  decide

/-- **C6.** Every dependency the manifest lists — the six run-time
requirements and the one dev extra — is of the form `name>=X.Y.Z` with a
nonempty name and three numeric version components. -/
theorem all_requirements_well_formed :
    (setupManifest.install_requires
        ++ (setupManifest.extras_require.map Prod.snd).flatten).all
      isValidRequirement = true := by
  decide

/-- **C7.** The declared distribution version string `1.1.4` parses as a
semantic version: three dot-separated non-negative integer components with
no extra characters. -/
theorem version_is_semver :
    isSemVer setupManifest.version = true := by
  decide

/-- **C8 counterexample.** The claim that evaluating the manifest is "a
constant declaration independent of the environment it is evaluated in" is
false: two filesystems with different `README.md` contents yield different
evaluation results, because the manifest itself calls
`open('README.md').read()`. -/
theorem eval_depends_on_environment :
    evalSetup { readme := some "a", dirTree := [] }
      ≠ evalSetup { readme := some "b", dirTree := [] } := by
  decide

/-- **C8 (amended).** The manifest has no algorithmic content of its own,
but its evaluation does make two filesystem-dependent calls:
`find_packages()` and `open('README.md').read()`. Every other declared
field is a constant: any two successful evaluations, over any two
environments, agree on all fields except `packages` and
`long_description`, and those two are exactly the values read from the
evaluating environment's filesystem. -/
theorem only_packages_and_readme_depend_on_environment
    (fs1 fs2 : FileSystem) (m1 m2 : Metadata)
    (h1 : evalSetup fs1 = .ok m1) (h2 : evalSetup fs2 = .ok m2) :
    (m1.name = m2.name ∧ m1.version = m2.version ∧
     m1.description = m2.description ∧ m1.author = m2.author ∧
     m1.author_email = m2.author_email ∧ m1.url = m2.url ∧
     m1.license = m2.license ∧ m1.keywords = m2.keywords ∧
     m1.install_requires = m2.install_requires ∧
     m1.extras_require = m2.extras_require ∧
     m1.long_description_content_type = m2.long_description_content_type) ∧
    m1.packages = find_packages fs1.dirTree ∧
    fs1.readme = some m1.long_description := by
  obtain ⟨n1, v1, d1, a1, ae1, u1, l1, k1, i1, e1, c1⟩ :=
    evalSetup_ok_static fs1 m1 h1
  obtain ⟨n2, v2, d2, a2, ae2, u2, l2, k2, i2, e2, c2⟩ :=
    evalSetup_ok_static fs2 m2 h2
  exact ⟨⟨n1.trans n2.symm, v1.trans v2.symm, d1.trans d2.symm,
      a1.trans a2.symm, ae1.trans ae2.symm, u1.trans u2.symm,
      l1.trans l2.symm, k1.trans k2.symm, i1.trans i2.symm,
      e1.trans e2.symm, c1.trans c2.symm⟩,
    evalSetup_ok_packages fs1 m1 h1, evalSetup_ok_readme fs1 m1 h1⟩

/-- Witness for `only_packages_and_readme_depend_on_environment` at two
concrete filesystems with different readmes and trees. -/
theorem only_packages_and_readme_depend_on_environment_witness :
    (metaA.name = metaB.name ∧ metaA.version = metaB.version ∧
     metaA.description = metaB.description ∧ metaA.author = metaB.author ∧
     metaA.author_email = metaB.author_email ∧ metaA.url = metaB.url ∧
     metaA.license = metaB.license ∧ metaA.keywords = metaB.keywords ∧
     metaA.install_requires = metaB.install_requires ∧
     metaA.extras_require = metaB.extras_require ∧
     metaA.long_description_content_type
       = metaB.long_description_content_type) ∧
    metaA.packages = find_packages fsA.dirTree ∧
    fsA.readme = some metaA.long_description :=
  only_packages_and_readme_depend_on_environment fsA fsB metaA metaB rfl rfl

/-- **C9.** Whatever environment the manifest is evaluated in, a successful
evaluation carries the empty string as `author_email`: the field is passed
explicitly as `""`, neither an address nor omitted. -/
theorem author_email_always_empty
    (fs : FileSystem) (m : Metadata) (h : evalSetup fs = .ok m) :
    m.author_email = "" := by
  simp only [evalSetup, evalManifest] at h
  split at h
  · exact absurd h (by simp)
  · cases h
    rfl

/-- Witness for `author_email_always_empty` at a concrete filesystem. -/
theorem author_email_always_empty_witness :
    metaA.author_email = "" :=
  author_email_always_empty fsA metaA rfl

/-- **C10.** The declared package set is not fixed by the manifest text but
computed from the directory tree at evaluation time: any two successful
evaluations over identical directory contents declare the same package
set, while over differing directory contents the declared sets may differ
(witnessed by two concrete evaluations). -/
theorem packages_two_run_determinism
    (fs1 fs2 : FileSystem) (m1 m2 : Metadata)
    (hd : fs1.dirTree = fs2.dirTree)
    (h1 : evalSetup fs1 = .ok m1) (h2 : evalSetup fs2 = .ok m2) :
    m1.packages = m2.packages ∧
    ∃ g1 g2 : FileSystem, ∃ n1 n2 : Metadata,
      evalSetup g1 = .ok n1 ∧ evalSetup g2 = .ok n2 ∧
      n1.packages ≠ n2.packages := by
  constructor
  · rw [evalSetup_ok_packages fs1 m1 h1, evalSetup_ok_packages fs2 m2 h2, hd]
  · exact ⟨fsA, fsB, metaA, metaB, rfl, rfl, by decide⟩

/-- Witness for `packages_two_run_determinism`: two evaluations over the
same directory tree (but different readmes) declare the same packages. -/
theorem packages_two_run_determinism_witness :
    metaA.packages = metaC.packages ∧
    ∃ g1 g2 : FileSystem, ∃ n1 n2 : Metadata,
      evalSetup g1 = .ok n1 ∧ evalSetup g2 = .ok n2 ∧
      n1.packages ≠ n2.packages :=
  packages_two_run_determinism fsA fsC metaA metaC rfl rfl rfl

end Spacetower
